import Mathlib

/-!
Shallow embedding of the assignment-tracking reconciliation engine:
the report-text importer (sync/importer.py), the live-feed course writer
(learner_data_writer/sync_analysis_to_class_db.py), the live sync entry
point (sync/learner_data/writer.py with learner_data_writer/get_all_coursework.py),
and the canonical-store access layer (database/db.py).

Modelling conventions:
  * scores and percentages are rational numbers (`ℚ`); the Python code uses
    floats, and every claim settled here is robust to that idealization;
  * timestamps are natural numbers forming a totally ordered time domain;
    the code stores ISO text and compares it lexicographically;
  * SQL tables are lists of row structures; `SELECT ... LIMIT 1`-style
    lookups are `List.find?`, `UPDATE ... WHERE` is a conditional map,
    `INSERT` appends; SQL `SUM`/`AVG`/`MAX` return `none` on empty input;
  * Python `round` is banker's rounding, modelled exactly on `ℚ`.
-/

namespace AssignmentBot

/-- Round a rational to the nearest integer, ties to even (Python `round`). -/
def roundHalfEven (q : ℚ) : ℤ :=
  let f : ℤ := q.floor
  let r : ℚ := q - (f : ℚ)
  if r < 1/2 then f
  else if 1/2 < r then f + 1
  else if f % 2 = 0 then f else f + 1

/-- Python `round(q, n)`: banker's rounding at `n` decimal digits. -/
def roundTo (n : ℕ) (q : ℚ) : ℚ :=
  ((roundHalfEven (q * (10 : ℚ) ^ n) : ℤ) : ℚ) / (10 : ℚ) ^ n

/-- The status enum stored in the submissions table (`ALLOWED_STATUSES`). -/
inductive Status where
  | Missing
  | Submitted
  | Late
  | Graded
  | Flagged
deriving DecidableEq, Repr

/-- Lifecycle states of an upstream classroom submission object. The code
only tests membership in `["NEW", "CREATED"]`; the remaining constructors
enumerate the other states the upstream API can report. -/
inductive SubmissionState where
  | NEW
  | CREATED
  | TURNED_IN
  | RETURNED
  | RECLAIMED_BY_STUDENT
  | STATE_UNSPECIFIED
deriving DecidableEq, Repr

/-- The embedded `submission` object of a live-feed coursework item. -/
structure RawSubmission where
  state : SubmissionState
  late : Bool
  assignedGrade : Option ℚ
deriving DecidableEq, Repr

/-- One live-feed coursework object: `{id, title, maxPoints?, creationTime?,
submission?}`. External ids are numeric upstream, modelled as `ℕ`. -/
structure Coursework where
  id : ℕ
  title : String
  creationTime : Option ℕ
  maxPoints : Option ℚ
  submission : Option RawSubmission
deriving DecidableEq, Repr

/-- The `score_raw` column: either the bare grade (`str(assignedGrade)`),
a rendered fraction (`f"{grade}/{max}"`), or a verbatim report token. -/
inductive RawScore where
  | bare (g : ℚ)
  | frac (g m : ℚ)
  | token (s : List Char)
deriving DecidableEq, Repr

/-- The dict returned by `_compute_submission_status_and_score`. -/
structure ScorePayload where
  status : Status
  score_raw : Option RawScore
  score_points : Option ℚ
  score_max : Option ℚ
  score_pct : Option ℚ
deriving DecidableEq, Repr

/-- The helper value `score_max_default`: `float(max_points)` when
`maxPoints` is present and nonzero, else `None`. -/
def scoreMaxDefault (maxPoints : Option ℚ) : Option ℚ :=
  match maxPoints with
  | some m => if m = 0 then none else some m
  | none => none

/-- Embedding of `_compute_submission_status_and_score` from
`learner_data_writer/sync_analysis_to_class_db.py`. -/
def computeSubmissionStatusAndScore (cw : Coursework) : ScorePayload :=
  let d := scoreMaxDefault cw.maxPoints
  match cw.submission with
  | none => ⟨.Missing, none, none, d, none⟩
  | some sub =>
    let status :=
      if sub.state = .NEW ∨ sub.state = .CREATED then Status.Missing
      else if sub.late then Status.Late
      else Status.Submitted
    match sub.assignedGrade with
    | none => ⟨status, none, none, d, none⟩
    | some g =>
      if g = 0 then ⟨.Missing, none, none, d, none⟩
      else
        match cw.maxPoints with
        | none => ⟨status, some (.bare g), some g, none, none⟩
        | some m =>
          if m = 0 then ⟨status, some (.bare g), some g, none, none⟩
          else ⟨status, some (.frac g m), some g, some m,
                some (roundTo 2 (g / m * 100))⟩

/-- Split a character list at every occurrence of a separator character
(Python `str.split`). -/
def splitOnChar (sep : Char) : List Char → List (List Char)
  | [] => [[]]
  | c :: rest =>
    let r := splitOnChar sep rest
    if c = sep then [] :: r
    else
      match r with
      | [] => [[c]]
      | h :: t => (c :: h) :: t

/-- Python `raw.split("/")`. -/
def splitOnSlash (s : List Char) : List (List Char) :=
  splitOnChar '/' s

/-- Numeric value of a decimal digit character, if it is one. -/
def digitVal (c : Char) : Option ℕ :=
  if c.isDigit then some (c.toNat - 48) else none

/-- Parse a nonempty all-digit character list as a natural number. -/
def parseNatDigits (s : List Char) : Option ℕ :=
  match s with
  | [] => none
  | _ => s.foldl (fun acc c => acc.bind fun n => (digitVal c).map fun d => n * 10 + d)
      (some 0)

/-- Parse an unsigned decimal literal: digits with at most one point and at
least one digit overall, the fragment of Python `float` the report scores
exercise. -/
def parseUnsignedDecimal (s : List Char) : Option ℚ :=
  match splitOnChar '.' s with
  | [intPart] => (parseNatDigits intPart).map fun n => (n : ℚ)
  | [intPart, fracPart] =>
    match intPart, fracPart with
    | [], [] => none
    | [], f => (parseNatDigits f).map fun n => (n : ℚ) / (10 : ℚ) ^ f.length
    | i, [] => (parseNatDigits i).map fun n => (n : ℚ)
    | i, f =>
      (parseNatDigits i).bind fun ni =>
        (parseNatDigits f).map fun nf =>
          (ni : ℚ) + (nf : ℚ) / (10 : ℚ) ^ f.length
  | _ => none

/-- Parse a signed decimal literal (Python `float` on a simple numeral). -/
def parseFloatLit (s : List Char) : Option ℚ :=
  match s with
  | '-' :: rest => (parseUnsignedDecimal rest).map Neg.neg
  | '+' :: rest => parseUnsignedDecimal rest
  | _ => parseUnsignedDecimal s

/-- Embedding of `_parse_score` from `sync/importer.py`: split the token on
a slash, coerce both halves, and compute `round(pts / mx * 100, 1)` when
the maximum is nonzero; any failure yields three `none`s. -/
def parse_score (raw : Option (List Char)) : Option ℚ × Option ℚ × Option ℚ :=
  match raw with
  | none => (none, none, none)
  | some s =>
    match splitOnSlash s with
    | [p, m] =>
      match parseFloatLit p, parseFloatLit m with
      | some pts, some mx =>
        (some pts, some mx,
          if mx = 0 then none else some (roundTo 1 (pts / mx * 100)))
      | _, _ => (none, none, none)
    | _ => (none, none, none)

/-- Splitting a list free of the separator yields the singleton list. -/
theorem splitOnChar_not_mem (sep : Char) (s : List Char) (h : sep ∉ s) :
    splitOnChar sep s = [s] := by
  induction s with
  | nil => rfl
  | cons c rest ih =>
    have hc : c ≠ sep := fun hcs => h (hcs ▸ List.mem_cons_self c rest)
    have hr : sep ∉ rest := fun hm => h (List.mem_cons_of_mem c hm)
    simp only [splitOnChar, if_neg hc, ih hr]

/-- Splitting a list that is a separator-free prefix, the separator, then a
tail peels off exactly the prefix. -/
theorem splitOnChar_append (sep : Char) (p m : List Char) (hp : sep ∉ p) :
    splitOnChar sep (p ++ sep :: m) = p :: splitOnChar sep m := by
  induction p with
  | nil => simp [splitOnChar]
  | cons c rest ih =>
    have hc : c ≠ sep := fun hcs => hp (hcs ▸ List.mem_cons_self c rest)
    have hr : sep ∉ rest := fun hm => hp (List.mem_cons_of_mem c hm)
    simp only [List.cons_append, splitOnChar, if_neg hc, List.append_eq, ih hr]

/-- C5, counterexample. The claim says `_parse_score` rounds the percentage
to two decimals and yields all-null on a zero maximum. On "1/3" the code
returns `33.3` (one decimal), which differs from `round(100/3, 2) = 33.33`;
on "5/0" it returns points `5` and max `0` rather than all nulls. -/
theorem c5_counterexample :
    parse_score (some ['1', '/', '3']) = (some 1, some 3, some (333/10)) ∧
    (333/10 : ℚ) ≠ roundTo 2 ((1 : ℚ) / 3 * 100) ∧
    parse_score (some ['5', '/', '0']) = (some 5, some 0, none) := by
  with_unfolding_all decide

/-- C5, amended. For a score token "P/M" with numeric halves, `_parse_score`
returns `points = P`, `max = M`, and `pct = round(P/M*100, 1)` (one decimal)
when `M ≠ 0`; when `M = 0` it returns `points = P`, `max = 0`, `pct = null`;
only a token that does not split into exactly two numeric halves (or a
missing token) yields all three null. -/
theorem c5_parse_score_amended :
    (∀ p m P M, '/' ∉ p → '/' ∉ m →
      parseFloatLit p = some P → parseFloatLit m = some M →
      parse_score (some (p ++ '/' :: m)) =
        (some P, some M,
          if M = 0 then none else some (roundTo 1 (P / M * 100)))) ∧
    (∀ s, (splitOnSlash s).length ≠ 2 →
      parse_score (some s) = (none, none, none)) ∧
    (∀ s p m, splitOnSlash s = [p, m] →
      parseFloatLit p = none ∨ parseFloatLit m = none →
      parse_score (some s) = (none, none, none)) ∧
    parse_score none = (none, none, none) := by
  refine ⟨?_, ?_, ?_, rfl⟩
  · intro p m P M hp hm hP hM
    have hs : splitOnSlash (p ++ '/' :: m) = [p, m] := by
      unfold splitOnSlash
      rw [splitOnChar_append _ _ _ hp, splitOnChar_not_mem _ _ hm]
    simp only [parse_score, hs, hP, hM]
  · intro s hlen
    simp only [parse_score]
    cases hs : splitOnSlash s with
    | nil => simp
    | cons a t =>
      cases t with
      | nil => simp
      | cons b t2 =>
        cases t2 with
        | nil => exact absurd (by rw [hs]; rfl) hlen
        | cons c t3 => simp
  · intro s p m hs hnone
    simp only [parse_score, hs]
    rcases hnone with h | h
    · rw [h]
    · rw [h]
      cases parseFloatLit p <;> rfl

/-- Witness for `c5_parse_score_amended` at the token "8/10". -/
theorem c5_parse_score_amended_witness :
    parse_score (some (['8'] ++ '/' :: ['1', '0'])) =
      (some 8, some 10,
        if (10 : ℚ) = 0 then none else some (roundTo 1 ((8 : ℚ) / 10 * 100))) :=
  c5_parse_score_amended.1 ['8'] ['1', '0'] 8 10 (by decide) (by decide)
    (by with_unfolding_all decide) (by with_unfolding_all decide)

/-- C6, counterexample. The claim says that with no submission observed the
derived row has all score fields null; the code instead retains the
coursework's known nonzero `maxPoints` in `score_max`. -/
theorem c6_counterexample :
    computeSubmissionStatusAndScore ⟨1, "", none, some 10, none⟩ =
      ⟨.Missing, none, none, some 10, none⟩ ∧
    some (10 : ℚ) ≠ (none : Option ℚ) := by
  with_unfolding_all decide

/-- C6, amended. Status derivation satisfies: no submission maps to
`Missing` with null `score_raw`/`score_points`/`score_pct` but with
`score_max` holding the known nonzero `maxPoints`; a submitted, not-late,
ungraded observation maps to `Submitted` with the same score-field shape;
the concrete late 8-of-10 observation maps to `Late`, "8/10", 80.0; and a
zero assigned grade maps to `Missing` regardless of lateness. -/
theorem c6_status_derivation_amended :
    (∀ cw : Coursework, cw.submission = none →
      computeSubmissionStatusAndScore cw =
        ⟨.Missing, none, none, scoreMaxDefault cw.maxPoints, none⟩) ∧
    (∀ cw sub, cw.submission = some sub →
      sub.state ≠ .NEW → sub.state ≠ .CREATED → sub.late = false →
      sub.assignedGrade = none →
      computeSubmissionStatusAndScore cw =
        ⟨.Submitted, none, none, scoreMaxDefault cw.maxPoints, none⟩) ∧
    computeSubmissionStatusAndScore
        ⟨1, "", none, some 10, some ⟨.TURNED_IN, true, some 8⟩⟩ =
      ⟨.Late, some (.frac 8 10), some 8, some 10, some 80⟩ ∧
    (∀ cw sub, cw.submission = some sub → sub.assignedGrade = some 0 →
      (computeSubmissionStatusAndScore cw).status = .Missing) := by
  refine ⟨?_, ?_, by with_unfolding_all decide, ?_⟩
  · intro cw h
    simp [computeSubmissionStatusAndScore, h]
  · intro cw sub h hn hc hl hg
    simp [computeSubmissionStatusAndScore, h, hg, hn, hc, hl]
  · intro cw sub h hg
    simp [computeSubmissionStatusAndScore, h, hg]

/-- Witness for `c6_status_derivation_amended` on a no-submission input. -/
theorem c6_status_derivation_amended_witness :
    computeSubmissionStatusAndScore ⟨2, "", none, some 10, none⟩ =
      ⟨.Missing, none, none, scoreMaxDefault (some 10), none⟩ :=
  c6_status_derivation_amended.1 ⟨2, "", none, some 10, none⟩ rfl

/-- C7, counterexample. The claim says every `Missing` row has all four
score fields null; the code derives `Missing` with `score_points = 5` for a
NEW-state submission carrying a nonzero grade, and keeps `score_max = 10`
for a plain unsubmitted observation. -/
theorem c7_counterexample :
    (computeSubmissionStatusAndScore
        ⟨1, "", none, some 10, some ⟨.NEW, false, some 5⟩⟩).status = .Missing ∧
    (computeSubmissionStatusAndScore
        ⟨1, "", none, some 10, some ⟨.NEW, false, some 5⟩⟩).score_points = some 5 ∧
    (computeSubmissionStatusAndScore ⟨1, "", none, some 10, none⟩).score_max
      = some 10 := by
  with_unfolding_all decide

/-- C7, amended. A row the live derivation classifies as `Missing` has null
`score_raw`, `score_points` and `score_pct` — provided the observation is
not a NEW/CREATED-state submission carrying a nonzero grade (for those the
code keeps the grade); `score_max` may retain the coursework's maximum. -/
theorem c7_missing_null_scores_amended (cw : Coursework)
    (h : ∀ sub, cw.submission = some sub →
      sub.state = .NEW ∨ sub.state = .CREATED →
      ∀ g, sub.assignedGrade = some g → g = 0) :
    (computeSubmissionStatusAndScore cw).status = .Missing →
    (computeSubmissionStatusAndScore cw).score_raw = none ∧
    (computeSubmissionStatusAndScore cw).score_points = none ∧
    (computeSubmissionStatusAndScore cw).score_pct = none := by
  intro hM
  rcases hsub : cw.submission with _ | sub
  · simp [computeSubmissionStatusAndScore, hsub]
  · rcases hg : sub.assignedGrade with _ | g
    · simp [computeSubmissionStatusAndScore, hsub, hg]
    · by_cases hz : g = 0
      · simp [computeSubmissionStatusAndScore, hsub, hg, hz]
      · exfalso
        by_cases hnc : sub.state = .NEW ∨ sub.state = .CREATED
        · exact hz (h sub hsub hnc g hg)
        · have hstat :
              (computeSubmissionStatusAndScore cw).status =
                (if sub.late then Status.Late else Status.Submitted) := by
            rcases hmp : cw.maxPoints with _ | m
            · simp [computeSubmissionStatusAndScore, hsub, hg, hz, hnc, hmp]
            · by_cases hm0 : m = 0 <;>
                simp [computeSubmissionStatusAndScore, hsub, hg, hz, hnc, hmp,
                  hm0]
          rw [hstat] at hM
          by_cases hl : sub.late <;> simp [hl] at hM

/-- Witness for `c7_missing_null_scores_amended` on a no-submission input. -/
theorem c7_missing_null_scores_amended_witness :
    (computeSubmissionStatusAndScore ⟨1, "", none, some 10, none⟩).score_raw
        = none ∧
    (computeSubmissionStatusAndScore ⟨1, "", none, some 10, none⟩).score_points
        = none ∧
    (computeSubmissionStatusAndScore ⟨1, "", none, some 10, none⟩).score_pct
        = none :=
  c7_missing_null_scores_amended ⟨1, "", none, some 10, none⟩
    (fun _ hs => by simp at hs) (by with_unfolding_all decide)

/-! ## Canonical store

Tables are lists of rows; surrogate ids are allocated as one past the
largest id in use, mirroring sqlite rowid allocation. -/

/-- Row of the `schools` table. -/
structure SchoolRow where
  id : ℕ
  name : String
deriving DecidableEq, Repr

/-- Row of the `courses` table. -/
structure CourseRow where
  id : ℕ
  lms_id : ℕ
  name : String
  school_id : ℕ
deriving DecidableEq, Repr

/-- Row of the `students` table. -/
structure StudentRow where
  id : ℕ
  lms_id : ℕ
  full_name : String
deriving DecidableEq, Repr

/-- Row of the `enrollments` table. -/
structure EnrollmentRow where
  student_id : ℕ
  course_id : ℕ
deriving DecidableEq, Repr

/-- Row of the `assignments` table. -/
structure AssignmentRow where
  id : ℕ
  lms_id : ℕ
  course_id : ℕ
  title : String
  max_score : Option ℚ
  created_at : Option ℕ
  is_active : Bool
deriving DecidableEq, Repr

/-- Row of the `submissions` table. The insert statements of both adapters
omit `updated_at`, whose schema default stamps the write time (the schema
file itself is outside the sources; the default is modelled from the
spec's staleness design, which keys on `updated_at` bumps). -/
structure SubmissionRow where
  student_id : ℕ
  assignment_id : ℕ
  status : Status
  score_raw : Option RawScore
  score_points : Option ℚ
  score_max : Option ℚ
  score_pct : Option ℚ
  updated_at : ℕ
  flagged_by_student : Bool
  flag_verified : Bool
  flag_verified_at : Option ℕ
deriving DecidableEq, Repr

/-- Row of the `course_summaries` table. Aggregate columns are `Option`s
because SQL `SUM`/`AVG` return `NULL` on empty input; `needs_rebuild`
defaults to true on rows inserted without it (the migration in
`database/db.py` declares `needs_rebuild INTEGER DEFAULT 1`). -/
structure CourseSummaryRow where
  student_id : ℕ
  course_id : ℕ
  total_assigned : ℕ
  total_submitted : Option ℕ
  total_missing : Option ℕ
  total_late : Option ℕ
  total_graded : Option ℕ
  avg_submitted_pct : Option ℚ
  avg_all_pct : Option ℚ
  points_earned : Option ℚ
  points_possible : Option ℚ
  needs_rebuild : Bool
  last_synced : Option ℕ
deriving DecidableEq, Repr

/-- Row of the append-only `sync_log` table. -/
structure SyncLogRow where
  course_id : Option ℕ
  source : String
  rows_added : ℕ
  rows_updated : ℕ
  notes : Option String
  synced_at : ℕ
deriving DecidableEq, Repr

/-- The canonical store. -/
structure DB where
  schools : List SchoolRow
  courses : List CourseRow
  students : List StudentRow
  enrollments : List EnrollmentRow
  assignments : List AssignmentRow
  submissions : List SubmissionRow
  summaries : List CourseSummaryRow
  syncLog : List SyncLogRow
deriving DecidableEq, Repr

/-- The empty store. -/
def DB.empty : DB := ⟨[], [], [], [], [], [], [], []⟩

/-- Allocate the next surrogate id for a table. -/
def nextId (ids : List ℕ) : ℕ := ids.foldr max 0 + 1

/-- Statistics dict of `sync_course_analysis_to_db`. -/
structure LiveStats where
  courses_added : ℕ := 0
  courses_updated : ℕ := 0
  students_added : ℕ := 0
  students_updated : ℕ := 0
  enrollments_added : ℕ := 0
  assignments_added : ℕ := 0
  assignments_updated : ℕ := 0
  assignments_deleted : ℕ := 0
  submissions_added : ℕ := 0
  submissions_updated : ℕ := 0
  summaries_upserted : ℕ := 0
  sync_logs_added : ℕ := 0
deriving DecidableEq, Repr

/-- Statistics dict of `import_to_db`. -/
structure ImportStats where
  students : ℕ := 0
  assignments : ℕ := 0
  submissions : ℕ := 0
  updated : ℕ := 0
deriving DecidableEq, Repr

/-- Key predicate of the `(student_id, assignment_id)` uniqueness on
submissions. -/
def subKey (sid aid : ℕ) (r : SubmissionRow) : Bool :=
  r.student_id == sid && r.assignment_id == aid

/-- `SELECT ... FROM submissions WHERE student_id=? AND assignment_id=?`. -/
def findSubmission (db : DB) (sid aid : ℕ) : Option SubmissionRow :=
  db.submissions.find? (subKey sid aid)

/-- The change test of `_upsert_submission`: true when at least one of
status, score_raw, score_points, score_max, score_pct differs. -/
def payloadChanged (r : SubmissionRow) (p : ScorePayload) : Bool :=
  !(r.status == p.status && r.score_raw == p.score_raw &&
    r.score_points == p.score_points && r.score_max == p.score_max &&
    r.score_pct == p.score_pct)

/-- Apply the five observable fields of a payload to a stored submission
row, stamping `updated_at` (the UPDATE branch of `_upsert_submission`). -/
def applyPayload (p : ScorePayload) (now : ℕ) (r : SubmissionRow) :
    SubmissionRow :=
  { r with
    status := p.status
    score_raw := p.score_raw
    score_points := p.score_points
    score_max := p.score_max
    score_pct := p.score_pct
    updated_at := now }

/-- Embedding of `_upsert_submission` from
`learner_data_writer/sync_analysis_to_class_db.py`: insert when absent,
update only when `payloadChanged`, otherwise leave the row (and its
`updated_at`) untouched. -/
def upsertSubmissionLive (db : DB) (sid aid : ℕ) (p : ScorePayload)
    (now : ℕ) (st : LiveStats) : DB × LiveStats :=
  match findSubmission db sid aid with
  | none =>
    ({ db with
        submissions := db.submissions ++
          [⟨sid, aid, p.status, p.score_raw, p.score_points, p.score_max,
            p.score_pct, now, false, false, none⟩] },
     { st with submissions_added := st.submissions_added + 1 })
  | some row =>
    if payloadChanged row p then
      ({ db with
          submissions := db.submissions.map fun r =>
            if subKey sid aid r then applyPayload p now r else r },
       { st with submissions_updated := st.submissions_updated + 1 })
    else (db, st)

/-- Finding in a conditionally key-preserving update is finding then
updating. -/
theorem find_map_update {α : Type} (l : List α) (k : α → Bool) (u : α → α)
    (hk : ∀ a, k a = true → k (u a) = true) :
    (l.map fun a => if k a then u a else a).find? k = (l.find? k).map u := by
  induction l with
  | nil => rfl
  | cons a t ih =>
    by_cases h : k a = true
    · simp [List.find?_cons, h, hk a h]
    · have h' : k a = false := by
        cases hka : k a
        · rfl
        · exact absurd hka h
      simp [List.find?_cons, h', ih]

/-- Finding past a prefix with no match. -/
theorem find_append_none {α : Type} (l1 l2 : List α) (k : α → Bool)
    (h : l1.find? k = none) : (l1 ++ l2).find? k = l2.find? k := by
  induction l1 with
  | nil => rfl
  | cons a t ih =>
    rw [List.find?_cons] at h
    cases hka : k a
    · rw [hka] at h
      simp only [List.cons_append, List.find?_cons, hka]
      exact ih h
    · rw [hka] at h
      exact absurd h (by simp)

/-- The row written by either branch of the upsert matches the payload, so
a second identical upsert sees no change. -/
theorem payloadChanged_applyPayload (p : ScorePayload) (now : ℕ)
    (r : SubmissionRow) : payloadChanged (applyPayload p now r) p = false := by
  simp [payloadChanged, applyPayload]

/-- C1, amended. The live-feed submission upsert is idempotent: once
`_upsert_submission` has applied a payload, re-applying the identical
payload (at any later time) performs no insert, no update, and no
`updated_at` bump — the store and the statistics are returned unchanged.
The report-text path lacks this property (see the counterexample): its
UPDATE is unconditional and bumps `updated_at` on every pass. -/
theorem c1_live_upsert_idempotent (db : DB) (sid aid t1 t2 : ℕ)
    (p : ScorePayload) (st : LiveStats) :
    upsertSubmissionLive (upsertSubmissionLive db sid aid p t1 st).1 sid aid p
      t2 (upsertSubmissionLive db sid aid p t1 st).2 =
    upsertSubmissionLive db sid aid p t1 st := by
  cases h : findSubmission db sid aid with
  | none =>
    have hnew :
        findSubmission
          { db with
            submissions := db.submissions ++
              [⟨sid, aid, p.status, p.score_raw, p.score_points, p.score_max,
                p.score_pct, t1, false, false, none⟩] } sid aid =
        some ⟨sid, aid, p.status, p.score_raw, p.score_points, p.score_max,
          p.score_pct, t1, false, false, none⟩ := by
      unfold findSubmission at h ⊢
      simp only []
      rw [find_append_none _ _ _ h]
      simp [List.find?_cons, subKey]
    simp only [upsertSubmissionLive, h]
    rw [hnew]
    simp [payloadChanged]
  | some row =>
    cases hc : payloadChanged row p with
    | false =>
      simp [upsertSubmissionLive, h, hc]
    | true =>
      have hupd :
          findSubmission
            { db with
              submissions := db.submissions.map fun r =>
                if subKey sid aid r then applyPayload p t1 r else r } sid aid =
          some (applyPayload p t1 row) := by
        unfold findSubmission at h ⊢
        simp only []
        rw [find_map_update _ _ _ (fun a ha => by
          simp [subKey] at ha ⊢
          simp [applyPayload, ha])]
        rw [h]
        rfl
      simp only [upsertSubmissionLive, h, hc, if_true]
      rw [hupd]
      simp [payloadChanged_applyPayload]

/-! ## Summary aggregation (`rebuild_summary` and friends in
`database/db.py`) -/

/-- SQLite `ROUND` to the nearest integer, ties away from zero. -/
def roundAway (q : ℚ) : ℤ :=
  if 0 ≤ q then (q + 1/2).floor else -((-q + 1/2).floor)

/-- SQLite `ROUND(q, n)`. -/
def sqlRound (n : ℕ) (q : ℚ) : ℚ :=
  ((roundAway (q * (10 : ℚ) ^ n) : ℤ) : ℚ) / (10 : ℚ) ^ n

/-- SQL `MAX` aggregate over the listed non-null values. -/
def listMax {α : Type} [LinearOrder α] : List α → Option α
  | [] => none
  | x :: xs =>
    match listMax xs with
    | none => some x
    | some y => some (max x y)

/-- The correlated subquery `SELECT MAX(s2.score_max) FROM submissions s2
WHERE s2.assignment_id = a.id AND s2.score_max IS NOT NULL`. -/
def observedMaxForAssignment (db : DB) (aid : ℕ) : Option ℚ :=
  listMax (db.submissions.filterMap fun s2 =>
    if s2.assignment_id == aid then s2.score_max else none)

/-- `COALESCE(a.max_score, (observed max), 0)` — the `possible_points` of
the `course_assignments` CTE in `rebuild_summary`. -/
def possiblePoints (db : DB) (a : AssignmentRow) : ℚ :=
  match a.max_score with
  | some m => m
  | none => (observedMaxForAssignment db a.id).getD 0

/-- The effectively-submitted predicate of `rebuild_summary`'s
`total_submitted` column. -/
def isEffSubmitted (sub : Option SubmissionRow) : Bool :=
  match sub with
  | none => false
  | some s =>
    match s.score_points with
    | none => false
    | some q => !(s.status == .Missing) && !(q == 0)

/-- The effectively-missing predicate (`total_missing` column, also used as
the read-time reclassification across `database/db.py`). -/
def isEffMissing (sub : Option SubmissionRow) : Bool :=
  match sub with
  | none => true
  | some s =>
    s.status == .Missing || s.score_points == some 0 ||
      ((s.status == .Submitted || s.status == .Late || s.status == .Graded) &&
        s.score_points == none)

/-- The `total_late` predicate. -/
def isEffLate (sub : Option SubmissionRow) : Bool :=
  match sub with
  | none => false
  | some s =>
    match s.score_points with
    | none => false
    | some q => s.status == .Late && !(q == 0)

/-- The `total_graded` predicate. -/
def isEffGraded (sub : Option SubmissionRow) : Bool :=
  match sub with
  | none => false
  | some s =>
    match s.score_points with
    | none => false
    | some q => s.score_pct.isSome && !(q == 0)

/-- The aggregation query of `rebuild_summary`: join the course's
assignments against the student's submissions and compute the rollup row,
with `needs_rebuild` cleared and `last_synced` stamped. -/
def computeSummaryRow (db : DB) (sid cid now : ℕ) : CourseSummaryRow :=
  let asgs := db.assignments.filter fun a => a.course_id == cid
  let rows := asgs.map fun a => (a, findSubmission db sid a.id)
  let earned : AssignmentRow × Option SubmissionRow → ℚ := fun r =>
    (r.2.bind (fun s => s.score_points)).getD 0
  let sumE := (rows.map earned).sum
  let sumP := (rows.map fun r => possiblePoints db r.1).sum
  let gradedPcts := rows.filterMap fun r =>
    if isEffGraded r.2 then r.2.bind (fun s => s.score_pct) else none
  { student_id := sid
    course_id := cid
    total_assigned := rows.length
    total_submitted :=
      if rows.isEmpty then none
      else some (rows.filter (fun r => isEffSubmitted r.2)).length
    total_missing :=
      if rows.isEmpty then none
      else some (rows.filter (fun r => isEffMissing r.2)).length
    total_late :=
      if rows.isEmpty then none
      else some (rows.filter (fun r => isEffLate r.2)).length
    total_graded :=
      if rows.isEmpty then none
      else some (rows.filter (fun r => isEffGraded r.2)).length
    avg_submitted_pct :=
      if gradedPcts.isEmpty then none
      else some (sqlRound 2 (gradedPcts.sum / (gradedPcts.length : ℚ)))
    avg_all_pct :=
      if rows.isEmpty then none
      else if sumP = 0 then none else some (sqlRound 2 (sumE * 100 / sumP))
    points_earned := if rows.isEmpty then none else some sumE
    points_possible := if rows.isEmpty then none else some sumP
    needs_rebuild := false
    last_synced := some now }

/-- Key predicate of the `(student_id, course_id)` uniqueness on
course summaries. -/
def sumKey (sid cid : ℕ) (r : CourseSummaryRow) : Bool :=
  r.student_id == sid && r.course_id == cid

/-- `SELECT * FROM course_summaries WHERE student_id=? AND course_id=?`. -/
def findSummary (db : DB) (sid cid : ℕ) : Option CourseSummaryRow :=
  db.summaries.find? (sumKey sid cid)

/-- `INSERT ... ON CONFLICT(student_id, course_id) DO UPDATE` replacing
every aggregate column (the write of `rebuild_summary`). -/
def writeSummaryRow (db : DB) (r : CourseSummaryRow) : DB :=
  if db.summaries.any (sumKey r.student_id r.course_id) then
    { db with
      summaries := db.summaries.map fun x =>
        if sumKey r.student_id r.course_id x then r else x }
  else { db with summaries := db.summaries ++ [r] }

/-- Embedding of `rebuild_summary` from `database/db.py` for an explicitly
resolved course. -/
def rebuildSummary (sid cid now : ℕ) (db : DB) : DB :=
  writeSummaryRow db (computeSummaryRow db sid cid now)

/-- `MAX(sub.updated_at)` over the student's submissions joined to the
course's assignments (`_summary_needs_refresh`). -/
def maxSubmissionUpdated (db : DB) (sid cid : ℕ) : Option ℕ :=
  listMax (db.submissions.filterMap fun s =>
    if s.student_id == sid &&
        db.assignments.any (fun a => a.id == s.assignment_id &&
          a.course_id == cid)
    then some s.updated_at else none)

/-- `MAX(created_at)` over the course's assignments
(`_summary_needs_refresh`). -/
def maxAssignmentCreated (db : DB) (cid : ℕ) : Option ℕ :=
  listMax ((db.assignments.filter fun a => a.course_id == cid).filterMap
    fun a => a.created_at)

/-- Embedding of `_summary_needs_refresh` from `database/db.py`: refresh
when no row exists, when `needs_rebuild` is set, or when the newest
submission/assignment timestamp exceeds `last_synced` (the code compares
ISO strings; timestamps here are the ordered time domain). -/
def summaryNeedsRefresh (db : DB) (sid cid : ℕ)
    (row? : Option CourseSummaryRow) : Bool :=
  match row? with
  | none => true
  | some row =>
    if row.needs_rebuild then true
    else
      let ls := row.last_synced.getD 0
      let c1 :=
        match maxSubmissionUpdated db sid cid with
        | some m => decide (ls < m)
        | none => false
      let c2 :=
        match maxAssignmentCreated db cid with
        | some m => decide (ls < m)
        | none => false
      c1 || c2

/-- Embedding of `get_summary` from `database/db.py` for an explicitly
resolved course: read the row, and when the staleness check fires invoke
the aggregator synchronously and re-read. -/
def getSummary (db : DB) (sid cid now : ℕ) : DB × Option CourseSummaryRow :=
  let row? := findSummary db sid cid
  if summaryNeedsRefresh db sid cid row? then
    let db2 := rebuildSummary sid cid now db
    (db2, findSummary db2 sid cid)
  else (db, row?)

/-- The submission UPDATE of `verify_flag`: set the status from the
verdict, mark the flag verified, and clear the student flag (the verifying
teacher's name column is omitted from the model). -/
def verifyFlagApply (db : DB) (sid aid : ℕ) (approved : Bool) (now : ℕ) :
    DB :=
  { db with
    submissions := db.submissions.map fun r =>
      if subKey sid aid r then
        { r with
          status := if approved then Status.Submitted else Status.Missing
          flag_verified := true
          flag_verified_at := some now
          flagged_by_student := false }
      else r }

/-- Embedding of `verify_flag` from `database/db.py`: update the
submission; when a row was hit, look up the assignment's course and
synchronously rebuild that (student, course) summary. -/
def verifyFlag (db : DB) (sid aid : ℕ) (approved : Bool) (now : ℕ) :
    DB × Bool :=
  if db.submissions.any (subKey sid aid) then
    let db1 := verifyFlagApply db sid aid approved now
    match db1.assignments.find? (fun a => a.id == aid) with
    | some a => (rebuildSummary sid a.course_id now db1, true)
    | none => (db1, true)
  else (db, false)

/-- After `writeSummaryRow`, looking the row's key up returns the row. -/
theorem findSummary_writeSummaryRow (db : DB) (r : CourseSummaryRow) :
    findSummary (writeSummaryRow db r) r.student_id r.course_id = some r := by
  have hkr : sumKey r.student_id r.course_id r = true := by
    simp [sumKey]
  unfold writeSummaryRow findSummary
  by_cases h : db.summaries.any (sumKey r.student_id r.course_id) = true
  · rw [if_pos h]
    simp only []
    rw [find_map_update _ _ _ (fun a _ => hkr)]
    rcases List.any_eq_true.mp h with ⟨x, hx, hkx⟩
    rcases Option.isSome_iff_exists.mp
        (List.find?_isSome.mpr ⟨x, hx, hkx⟩) with ⟨y, hy⟩
    rw [hy]
    rfl
  · rw [if_neg h]
    simp only []
    have hnone : db.summaries.find? (sumKey r.student_id r.course_id) = none := by
      rw [List.find?_eq_none]
      intro x hx hkx
      exact h (List.any_eq_true.mpr ⟨x, hx, hkx⟩)
    rw [find_append_none _ _ _ hnone]
    simp [List.find?_cons, hkr]

/-- After `rebuildSummary`, the summary read returns exactly the row the
aggregation computed from the pre-rebuild submissions and assignments
(which the rebuild itself does not modify). -/
theorem findSummary_rebuild (db : DB) (sid cid now : ℕ) :
    findSummary (rebuildSummary sid cid now db) sid cid =
      some (computeSummaryRow db sid cid now) :=
  findSummary_writeSummaryRow db (computeSummaryRow db sid cid now)

/-- C4, as claimed. When `get_summary` finds no CourseSummary row, or the
row is marked `needs_rebuild`, or the newest submission `updated_at` or
assignment `created_at` for that (student, course) exceeds the row's
`last_synced`, it synchronously invokes `rebuild_summary` and returns the
row freshly aggregated from the current Submission and Assignment rows. -/
theorem c4_get_summary_self_repair (db : DB) (sid cid now : ℕ)
    (h : findSummary db sid cid = none ∨
      ∃ row, findSummary db sid cid = some row ∧
        (row.needs_rebuild = true ∨
          (∃ m, maxSubmissionUpdated db sid cid = some m ∧
            row.last_synced.getD 0 < m) ∨
          (∃ m, maxAssignmentCreated db cid = some m ∧
            row.last_synced.getD 0 < m))) :
    getSummary db sid cid now =
      (rebuildSummary sid cid now db, some (computeSummaryRow db sid cid now))
    := by
  have href : summaryNeedsRefresh db sid cid (findSummary db sid cid) = true := by
    rcases h with h | ⟨row, hrow, hcond⟩
    · rw [h]; rfl
    · rw [hrow]
      unfold summaryNeedsRefresh
      rcases hcond with hnb | ⟨m, hm, hlt⟩ | ⟨m, hm, hlt⟩
      · simp [hnb]
      · by_cases hnb : row.needs_rebuild <;>
          simp [hnb, hm, hlt]
      · by_cases hnb : row.needs_rebuild <;>
          simp [hnb, hm, hlt]
  unfold getSummary
  rw [if_pos href]
  simp only [findSummary_rebuild]

/-- Witness for `c4_get_summary_self_repair`: a store with no summary row
triggers the synchronous rebuild. -/
theorem c4_get_summary_self_repair_witness :
    getSummary DB.empty 1 1 5 =
      (rebuildSummary 1 1 5 DB.empty, some (computeSummaryRow DB.empty 1 1 5))
    :=
  c4_get_summary_self_repair DB.empty 1 1 5 (Or.inl rfl)

/-- A store with one flagged Missing submission, its assignment, and an
existing clean summary row for the (student, course). -/
def c3Store : DB :=
  { schools := []
    courses := []
    students := []
    enrollments := []
    assignments := [⟨1, 11, 1, "", some 10, some 0, true⟩]
    submissions := [⟨1, 1, .Missing, none, none, none, none, 0, true, false,
      none⟩]
    summaries := [⟨1, 1, 0, none, none, none, none, none, none, none, none,
      false, some 0⟩]
    syncLog := [] }

/-- C3, counterexample. The claim says a verified-flag change leaves the
corresponding CourseSummary with `needs_rebuild = true` immediately after
the write. `verify_flag` instead rebuilds the summary synchronously, so
immediately after the write the row has `needs_rebuild = false`. -/
theorem c3_counterexample :
    (findSummary (verifyFlag c3Store 1 1 true 7).1 1 1).map
        (fun r => r.needs_rebuild) = some false ∧
    some false ≠ some true := by
  with_unfolding_all decide

/-- C3, amended. No submission write sets `needs_rebuild`: a verified-flag
change that hits a submission row synchronously rebuilds the (student,
course) summary — immediately afterwards the summary row exists, equals
the aggregation over the current rows, and has `needs_rebuild = false`
(creating the row if none existed); and the live-feed submission upsert
leaves the summaries table entirely untouched. -/
theorem c3_amended :
    (∀ (db : DB) (sid aid : ℕ) (approved : Bool) (now : ℕ)
      (a : AssignmentRow),
      db.submissions.any (subKey sid aid) = true →
      db.assignments.find? (fun x => x.id == aid) = some a →
      (verifyFlag db sid aid approved now).1 =
        rebuildSummary sid a.course_id now
          (verifyFlagApply db sid aid approved now) ∧
      findSummary (verifyFlag db sid aid approved now).1 sid a.course_id =
        some (computeSummaryRow (verifyFlagApply db sid aid approved now)
          sid a.course_id now) ∧
      (computeSummaryRow (verifyFlagApply db sid aid approved now)
        sid a.course_id now).needs_rebuild = false) ∧
    (∀ (db : DB) (sid aid : ℕ) (p : ScorePayload) (now : ℕ)
      (st : LiveStats),
      ((upsertSubmissionLive db sid aid p now st).1).summaries =
        db.summaries) := by
  constructor
  · intro db sid aid approved now a hsub ha
    have h1 : (verifyFlag db sid aid approved now).1 =
        rebuildSummary sid a.course_id now
          (verifyFlagApply db sid aid approved now) := by
      simp only [verifyFlag, hsub, if_true]
      rw [show (verifyFlagApply db sid aid approved now).assignments.find?
          (fun x => x.id == aid) = some a from ha]
    exact ⟨h1, by rw [h1, findSummary_rebuild], rfl⟩
  · intro db sid aid p now st
    cases h : findSubmission db sid aid with
    | none => simp [upsertSubmissionLive, h]
    | some row =>
      by_cases hc : payloadChanged row p <;>
        simp [upsertSubmissionLive, h, hc]

/-- Witness for `c3_amended` on the concrete store. -/
theorem c3_amended_witness :
    (verifyFlag c3Store 1 1 true 7).1 =
      rebuildSummary 1 1 7 (verifyFlagApply c3Store 1 1 true 7) ∧
    findSummary (verifyFlag c3Store 1 1 true 7).1 1 1 =
      some (computeSummaryRow (verifyFlagApply c3Store 1 1 true 7) 1 1 7) ∧
    (computeSummaryRow (verifyFlagApply c3Store 1 1 true 7) 1 1
      7).needs_rebuild = false :=
  c3_amended.1 c3Store 1 1 true 7 ⟨1, 11, 1, "", some 10, some 0, true⟩
    (by with_unfolding_all decide) (by with_unfolding_all decide)

/-! ## Report-text importer (`sync/importer.py`)

`import_to_db` runs as three separate transaction groups: the main import
(one `get_db` block), one `rebuild_summary` call per student row (each its
own `get_db` block), and the sync-log insert (another `get_db` block).
Runtime faults (sqlite errors and the like) are modelled by an optional
crash point indexing these transaction groups; a crash rolls back only the
group it lands in and propagates as an exception. -/

/-- One parsed assignment row of the report (an element of the
`assignments` list built by `parse_report`). -/
structure ImportAssignment where
  lms_id : ℕ
  title : String
  status : Status
  score_raw : Option (List Char)
  score_points : Option ℚ
  score_max : Option ℚ
  score_pct : Option ℚ
  created_at : ℕ
deriving DecidableEq, Repr

/-- One parsed student block of the report. -/
structure ImportStudent where
  full_name : String
  lms_id : ℕ
  assignments : List ImportAssignment
deriving DecidableEq, Repr

/-- The importer's assignment `max_score` merge:
`CASE WHEN stored IS NULL THEN incoming WHEN incoming IS NULL THEN stored
ELSE MAX(stored, incoming) END`. -/
def importerMergeMaxScore (stored incoming : Option ℚ) : Option ℚ :=
  match stored, incoming with
  | none, i => i
  | some s, none => some s
  | some s, some i => some (max s i)

/-- `INSERT INTO students ... ON CONFLICT(lms_id) DO UPDATE SET
full_name = excluded.full_name`. -/
def importUpsertStudent (db : DB) (lms : ℕ) (name : String) : DB :=
  if db.students.any (fun s => s.lms_id == lms) then
    { db with
      students := db.students.map fun s =>
        if s.lms_id == lms then { s with full_name := name } else s }
  else
    { db with
      students := db.students ++ [⟨nextId (db.students.map fun s => s.id),
        lms, name⟩] }

/-- `SELECT id FROM students WHERE lms_id = ?`. -/
def findStudentByLms (db : DB) (lms : ℕ) : Option StudentRow :=
  db.students.find? (fun s => s.lms_id == lms)

/-- `INSERT OR IGNORE INTO enrollments`. -/
def insertIgnoreEnrollment (db : DB) (sid cid : ℕ) : DB :=
  if db.enrollments.any (fun e => e.student_id == sid && e.course_id == cid)
  then db
  else { db with enrollments := db.enrollments ++ [⟨sid, cid⟩] }

/-- The importer's assignment upsert: insert with the report metadata, or
on conflict overwrite the title and merge `max_score` with
`importerMergeMaxScore` (leaving `course_id` and `created_at` alone). The
schema file is outside the sources; `is_active` takes its live-path value
`true` on insert. -/
def importUpsertAssignment (db : DB) (cid : ℕ) (a : ImportAssignment) : DB :=
  match db.assignments.find? (fun x => x.lms_id == a.lms_id) with
  | none =>
    { db with
      assignments := db.assignments ++
        [⟨nextId (db.assignments.map fun x => x.id), a.lms_id, cid, a.title,
          a.score_max, some a.created_at, true⟩] }
  | some _ =>
    { db with
      assignments := db.assignments.map fun x =>
        if x.lms_id == a.lms_id then
          { x with
            title := a.title
            max_score := importerMergeMaxScore x.max_score a.score_max }
        else x }

/-- The importer's submission upsert: unconditional UPDATE (bumping
`updated_at`) when the row exists, INSERT otherwise. -/
def importUpsertSubmission (db : DB) (sid aid : ℕ) (a : ImportAssignment)
    (now : ℕ) (st : ImportStats) : DB × ImportStats :=
  match findSubmission db sid aid with
  | some _ =>
    ({ db with
        submissions := db.submissions.map fun r =>
          if subKey sid aid r then
            { r with
              status := a.status
              score_raw := a.score_raw.map RawScore.token
              score_points := a.score_points
              score_max := a.score_max
              score_pct := a.score_pct
              updated_at := now }
          else r },
     { st with updated := st.updated + 1 })
  | none =>
    ({ db with
        submissions := db.submissions ++
          [⟨sid, aid, a.status, a.score_raw.map RawScore.token,
            a.score_points, a.score_max, a.score_pct, now, false, false,
            none⟩] },
     { st with submissions := st.submissions + 1 })

/-- One student iteration of `import_to_db`'s main loop; with `dry_run`
only the student counter moves. -/
def importStudentStep (db : DB) (st : ImportStats) (cid now : ℕ)
    (dry : Bool) (s : ImportStudent) : DB × ImportStats :=
  if dry then (db, { st with students := st.students + 1 })
  else
    let db1 := importUpsertStudent db s.lms_id s.full_name
    let sid := ((findStudentByLms db1 s.lms_id).map fun r => r.id).getD 0
    let db2 := insertIgnoreEnrollment db1 sid cid
    let st1 := { st with students := st.students + 1 }
    s.assignments.foldl
      (fun (acc : DB × ImportStats) a =>
        let db3 := importUpsertAssignment acc.1 cid a
        let aid := ((db3.assignments.find? (fun x => x.lms_id == a.lms_id)).map
          fun x => x.id).getD 0
        let st2 := { acc.2 with assignments := acc.2.assignments + 1 }
        importUpsertSubmission db3 sid aid a now st2)
      (db2, st1)

/-- The main import block of `import_to_db` (its first transaction). -/
def importSeg1 (students : List ImportStudent) (cid now : ℕ) (dry : Bool)
    (db : DB) (st : ImportStats) : DB × ImportStats :=
  students.foldl (fun acc s => importStudentStep acc.1 acc.2 cid now dry s)
    (db, st)

/-- The per-student `rebuild_summary` loop, each call its own transaction;
`i` numbers the transaction groups for the crash point. Returns the store,
whether a crash fired, and the next group index. -/
def runRebuilds : List ℕ → ℕ → ℕ → Option ℕ → ℕ → DB → DB × Bool × ℕ
  | [], _, _, _, i, db => (db, false, i)
  | sid :: rest, cid, now, crash, i, db =>
    if crash = some i then (db, true, i)
    else runRebuilds rest cid now crash (i + 1) (rebuildSummary sid cid now db)

/-- Embedding of `import_to_db` from `sync/importer.py`: the main import
commits first; then (unless `dry_run`) every student in the store gets a
summary rebuild in its own transaction; finally the sync-log row is
written in yet another transaction. The Boolean result reports whether a
crash fired (the exception propagating out of the function). -/
def importToDb (students : List ImportStudent) (cid : ℕ) (dry : Bool)
    (now : ℕ) (crash : Option ℕ) (db : DB) : DB × ImportStats × Bool :=
  if crash = some 0 then (db, {}, true)
  else
    let r1 := importSeg1 students cid now dry db {}
    if dry then (r1.1, r1.2, false)
    else
      match runRebuilds (r1.1.students.map fun s => s.id) cid now crash 1
        r1.1 with
      | (db2, true, _) => (db2, r1.2, true)
      | (db2, false, i) =>
        if crash = some i then (db2, r1.2, true)
        else
          ({ db2 with
              syncLog := db2.syncLog ++
                [⟨some cid, "txt_import", r1.2.submissions, r1.2.updated,
                  none, now⟩] },
           r1.2, false)

/-- C1, counterexample. Re-running the identical report feed a second time
performs one submission UPDATE (`stats["updated"] = 1`, not zero) and
bumps the stored row's `updated_at` from the first run's time to the
second run's. -/
theorem c1_counterexample :
    (importToDb
        [⟨"S", 5, [⟨20, "T", .Submitted, some ['9', '/', '1', '4'], some 9,
          some 14, some (643/10), 3⟩]⟩] 1 false 2 none
        (importToDb
          [⟨"S", 5, [⟨20, "T", .Submitted, some ['9', '/', '1', '4'], some 9,
            some 14, some (643/10), 3⟩]⟩] 1 false 1 none DB.empty).1).2.1 =
      ⟨1, 1, 0, 1⟩ ∧
    (1 : ℕ) ≠ 0 ∧
    (findSubmission
        (importToDb
          [⟨"S", 5, [⟨20, "T", .Submitted, some ['9', '/', '1', '4'], some 9,
            some 14, some (643/10), 3⟩]⟩] 1 false 2 none
          (importToDb
            [⟨"S", 5, [⟨20, "T", .Submitted, some ['9', '/', '1', '4'],
              some 9, some 14, some (643/10), 3⟩]⟩] 1 false 1 none
            DB.empty).1).1 1 1).map (fun r => r.updated_at) = some 2 ∧
    (findSubmission
        (importToDb
          [⟨"S", 5, [⟨20, "T", .Submitted, some ['9', '/', '1', '4'], some 9,
            some 14, some (643/10), 3⟩]⟩] 1 false 1 none DB.empty).1 1
        1).map (fun r => r.updated_at) = some 1 := by
  with_unfolding_all decide

/-! ## Live-feed course pass
(`learner_data_writer/sync_analysis_to_class_db.py`) -/

/-- The course header of a feed (`{id, name}`). -/
structure CourseInfo where
  id : ℕ
  name : String
deriving DecidableEq, Repr

/-- The upstream metrics dict consumed by `_upsert_course_summary`
(`total_assignments`, `missing`, `late`, `graded_count`,
`average_submitted`, `average_all`, each read with a default). -/
structure Metrics where
  total_assignments : Option ℕ
  missing : Option ℕ
  late : Option ℕ
  graded_count : Option ℕ
  average_submitted : Option ℚ
  average_all : Option ℚ
deriving DecidableEq, Repr

/-- One student's entry of the analysis dict: external id, the assembled
profile name, the coursework list, and the metrics. -/
structure StudentAnalysis where
  sid : ℕ
  fullName : String
  coursework : List Coursework
  metrics : Metrics
deriving DecidableEq, Repr

/-- One value of the in-memory assignment metadata map. -/
structure AssignMeta where
  title : String
  created_at : Option ℕ
  max_score : Option ℚ
deriving DecidableEq, Repr

/-- The fallback title: `cw.get("title") or lms_id`. -/
def titleOrId (id : ℕ) (title : String) : String :=
  if title = "" then toString id else title

/-- One step of `_build_assignment_map`: first sight inserts; later sights
keep the longer title, fill a missing creation time, and fill a missing
max score (first non-null wins inside one feed). -/
def insertCw (m : List (ℕ × AssignMeta)) (cw : Coursework) :
    List (ℕ × AssignMeta) :=
  let title := titleOrId cw.id cw.title
  match m.find? (fun kv => kv.1 == cw.id) with
  | none => m ++ [(cw.id, ⟨title, cw.creationTime, cw.maxPoints⟩)]
  | some kv =>
    let ex := kv.2
    let ex1 :=
      if title ≠ "" ∧ ex.title.length < title.length then
        { ex with title := title } else ex
    let ex2 :=
      if ex1.created_at = none ∧ cw.creationTime.isSome then
        { ex1 with created_at := cw.creationTime } else ex1
    let ex3 :=
      if ex2.max_score = none ∧ cw.maxPoints.isSome then
        { ex2 with max_score := cw.maxPoints } else ex2
    m.map fun kv2 => if kv2.1 == cw.id then (kv2.1, ex3) else kv2

/-- Embedding of `_build_assignment_map`. -/
def buildAssignmentMap (analysis : List StudentAnalysis) :
    List (ℕ × AssignMeta) :=
  analysis.foldl (fun m s => s.coursework.foldl insertCw m) []

/-- Embedding of `_upsert_assignments`: insert unseen assignments; for a
stored one move it to the course, keep the longer title, take any
differing non-null incoming `max_score` (last wins), fill a missing
creation time, and re-activate. Returns the `lms_id → id` map. -/
def upsertAssignmentsLive (db : DB) (cid : ℕ) (m : List (ℕ × AssignMeta))
    (st : LiveStats) : DB × LiveStats × List (ℕ × ℕ) :=
  m.foldl
    (fun (acc : DB × LiveStats × List (ℕ × ℕ)) kv =>
      let lms := kv.1
      let meta := kv.2
      let title := titleOrId lms meta.title
      let created := meta.created_at.getD 0
      match acc.1.assignments.find? (fun x => x.lms_id == lms) with
      | none =>
        let nid := nextId (acc.1.assignments.map fun x => x.id)
        ({ acc.1 with
            assignments := acc.1.assignments ++
              [⟨nid, lms, cid, title, meta.max_score, some created, true⟩] },
         { acc.2.1 with assignments_added := acc.2.1.assignments_added + 1 },
         acc.2.2 ++ [(lms, nid)])
      | some row =>
        let updCourse := !(row.course_id == cid)
        let updTitle := !(title == "") && decide (row.title.length < title.length)
        let updMax := meta.max_score.isSome && !(row.max_score == meta.max_score)
        let updCreated := row.created_at == none
        let newRow : AssignmentRow :=
          { row with
            course_id := if updCourse then cid else row.course_id
            title := if updTitle then title else row.title
            max_score := if updMax then meta.max_score else row.max_score
            created_at := if updCreated then some created else row.created_at
            is_active := true }
        ({ acc.1 with
            assignments := acc.1.assignments.map fun x =>
              if x.lms_id == lms then newRow else x },
         if updCourse || updTitle || updMax || updCreated then
           { acc.2.1 with
              assignments_updated := acc.2.1.assignments_updated + 1 }
         else acc.2.1,
         acc.2.2 ++ [(lms, row.id)]))
    (db, st, [])

/-- Embedding of `_delete_stale_assignments`: delete the course's
assignments whose external id is not among the active ids — restricted to
the `[start_date, end_date]` window when one is supplied, and with the
id restriction dropped entirely when the active set is empty. -/
def deleteStaleAssignments (db : DB) (cid : ℕ) (activeIds : List ℕ)
    (startD endD : Option ℕ) (st : LiveStats) : DB × LiveStats :=
  let cond : AssignmentRow → Bool := fun a =>
    a.course_id == cid &&
    (match startD with
     | some s2 => decide (s2 ≤ a.created_at.getD 0)
     | none => true) &&
    (match endD with
     | some e => decide (a.created_at.getD 0 ≤ e)
     | none => true) &&
    (if activeIds.isEmpty then true else !(activeIds.contains a.lms_id))
  let doomed := db.assignments.filter cond
  if doomed.isEmpty then (db, st)
  else
    ({ db with assignments := db.assignments.filter fun a => !(cond a) },
     { st with assignments_deleted := st.assignments_deleted + doomed.length })

/-- Embedding of `_upsert_school`. -/
def upsertSchoolLive (db : DB) (name : String) : DB × ℕ :=
  match db.schools.find? (fun s => s.name == name) with
  | some row => (db, row.id)
  | none =>
    let nid := nextId (db.schools.map fun s => s.id)
    ({ db with schools := db.schools ++ [⟨nid, name⟩] }, nid)

/-- Embedding of `_upsert_course`. -/
def upsertCourseLive (db : DB) (lms : ℕ) (name : String) (schoolId : ℕ)
    (st : LiveStats) : DB × LiveStats × ℕ :=
  match db.courses.find? (fun c => c.lms_id == lms) with
  | none =>
    let nid := nextId (db.courses.map fun c => c.id)
    ({ db with courses := db.courses ++ [⟨nid, lms, name, schoolId⟩] },
     { st with courses_added := st.courses_added + 1 }, nid)
  | some row =>
    if row.name ≠ name ∨ row.school_id ≠ schoolId then
      ({ db with
          courses := db.courses.map fun c =>
            if c.lms_id == lms then
              { c with name := name, school_id := schoolId } else c },
       { st with courses_updated := st.courses_updated + 1 }, row.id)
    else (db, st, row.id)

/-- Embedding of `_upsert_student`. -/
def upsertStudentLive (db : DB) (lms : ℕ) (name : String)
    (st : LiveStats) : DB × LiveStats × ℕ :=
  match db.students.find? (fun s => s.lms_id == lms) with
  | none =>
    let nid := nextId (db.students.map fun s => s.id)
    ({ db with students := db.students ++ [⟨nid, lms, name⟩] },
     { st with students_added := st.students_added + 1 }, nid)
  | some row =>
    if row.full_name ≠ name then
      ({ db with
          students := db.students.map fun s =>
            if s.lms_id == lms then { s with full_name := name } else s },
       { st with students_updated := st.students_updated + 1 }, row.id)
    else (db, st, row.id)

/-- Embedding of `_ensure_enrollment`. -/
def ensureEnrollmentLive (db : DB) (sid cid : ℕ) (st : LiveStats) :
    DB × LiveStats :=
  if db.enrollments.any (fun e => e.student_id == sid && e.course_id == cid)
  then (db, st)
  else
    ({ db with enrollments := db.enrollments ++ [⟨sid, cid⟩] },
     { st with enrollments_added := st.enrollments_added + 1 })

/-- The `points_earned` loop of `_upsert_course_summary`: sum the assigned
grades over coursework carrying a submission, a known `maxPoints`, and a
positive grade. -/
def directPointsEarned (coursework : List Coursework) : ℚ :=
  (coursework.filterMap fun cw =>
    match cw.submission, cw.maxPoints with
    | some sub, some _ =>
      match sub.assignedGrade with
      | some g => if g ≤ 0 then none else some g
      | none => none
    | _, _ => none).sum

/-- The `points_possible` loop of `_upsert_course_summary`: sum `maxPoints`
over the same qualifying coursework items. -/
def directPointsPossible (coursework : List Coursework) : ℚ :=
  (coursework.filterMap fun cw =>
    match cw.submission, cw.maxPoints with
    | some sub, some mp =>
      match sub.assignedGrade with
      | some g => if g ≤ 0 then none else some mp
      | none => none
    | _, _ => none).sum

/-- Embedding of `_upsert_course_summary`: write the metrics-derived
totals and the locally summed points; the insert leaves `needs_rebuild` at
its schema default (true), the update leaves the stored flag alone. -/
def upsertCourseSummaryLive (db : DB) (sid cid : ℕ) (metrics : Metrics)
    (coursework : List Coursework) (now : ℕ) (st : LiveStats) :
    DB × LiveStats :=
  let totalAssigned := metrics.total_assignments.getD coursework.length
  let totalMissing := metrics.missing.getD 0
  let r : CourseSummaryRow :=
    { student_id := sid
      course_id := cid
      total_assigned := totalAssigned
      total_submitted := some (totalAssigned - totalMissing)
      total_missing := some totalMissing
      total_late := some (metrics.late.getD 0)
      total_graded := some (metrics.graded_count.getD 0)
      avg_submitted_pct := some (metrics.average_submitted.getD 0)
      avg_all_pct := some (metrics.average_all.getD 0)
      points_earned := some (directPointsEarned coursework)
      points_possible := some (directPointsPossible coursework)
      needs_rebuild := true
      last_synced := some now }
  let st1 := { st with summaries_upserted := st.summaries_upserted + 1 }
  match findSummary db sid cid with
  | some row =>
    ({ db with
        summaries := db.summaries.map fun x =>
          if sumKey sid cid x then { r with needs_rebuild := row.needs_rebuild }
          else x },
     st1)
  | none => ({ db with summaries := db.summaries ++ [r] }, st1)

/-- The sync-log insert closing the live course pass. -/
def insertSyncLogLive (db : DB) (cid : ℕ) (sourceTag : String)
    (st : LiveStats) (now : ℕ) : DB × LiveStats :=
  ({ db with
      syncLog := db.syncLog ++
        [⟨some cid, sourceTag, st.submissions_added, st.submissions_updated,
          none, now⟩] },
   { st with sync_logs_added := st.sync_logs_added + 1 })

/-- One student iteration of the live pass: upsert the student and
enrollment, derive and upsert each submission (skipping coursework whose
assignment id is absent from the map), then write the course summary. -/
def syncStudentStep (db : DB) (st : LiveStats) (cid : ℕ)
    (ids : List (ℕ × ℕ)) (now : ℕ) (s : StudentAnalysis) :
    DB × LiveStats :=
  let r1 := upsertStudentLive db s.sid s.fullName st
  let sid := r1.2.2
  let r2 := ensureEnrollmentLive r1.1 sid cid r1.2.1
  let r3 := s.coursework.foldl
    (fun (acc : DB × LiveStats) cw =>
      match ids.find? (fun kv => kv.1 == cw.id) with
      | none => acc
      | some kv =>
        upsertSubmissionLive acc.1 sid kv.2
          (computeSubmissionStatusAndScore cw) now acc.2)
    (r2.1, r2.2)
  upsertCourseSummaryLive r3.1 sid cid s.metrics s.coursework now r3.2

/-- The transaction body of `sync_course_analysis_to_db`: school, course,
assignment map and upserts, stale-assignment cleanup (with the window
dropped whenever an explicit active-id set is supplied), the per-student
loop, and the sync-log row. -/
def syncCourseBody (course : CourseInfo) (analysis : List StudentAnalysis)
    (schoolName sourceTag : String) (startD endD : Option ℕ)
    (activeIds : Option (List ℕ)) (now : ℕ) (db : DB) : DB × LiveStats :=
  let r1 := upsertSchoolLive db schoolName
  let r2 := upsertCourseLive r1.1 course.id course.name r1.2 {}
  let cid := r2.2.2
  let amap := buildAssignmentMap analysis
  let r3 := upsertAssignmentsLive r2.1 cid amap r2.2.1
  let cleanupIds := activeIds.getD (amap.map fun kv => kv.1)
  let cleanupStart := if activeIds.isSome then none else startD
  let cleanupEnd := if activeIds.isSome then none else endD
  let r4 := deleteStaleAssignments r3.1 cid cleanupIds cleanupStart
    cleanupEnd r3.2.1
  let r5 := analysis.foldl
    (fun (acc : DB × LiveStats) s =>
      syncStudentStep acc.1 acc.2 cid r3.2.2 now s)
    (r4.1, r4.2)
  insertSyncLogLive r5.1 cid sourceTag r5.2 now

/-- Embedding of `sync_course_analysis_to_db`: an empty analysis returns
before any transaction opens; the body runs in one transaction whose
writes a raised exception (modelled by the crash flag) or a `dry_run`
request roll back wholesale. The Boolean result reports the propagated
exception. -/
def syncCourseAnalysisToDb (course : CourseInfo)
    (analysis : List StudentAnalysis) (schoolName sourceTag : String)
    (dry : Bool) (startD endD : Option ℕ) (activeIds : Option (List ℕ))
    (now : ℕ) (crash : Bool) (db : DB) : DB × LiveStats × Bool :=
  if analysis.isEmpty then (db, {}, false)
  else if crash then (db, {}, true)
  else
    let r := syncCourseBody course analysis schoolName sourceTag startD endD
      activeIds now db
    if dry then (db, r.2, false) else (r.1, r.2, false)

/-- The creation-time window filter of `get_all_coursework`
(`learner_data_writer/get_all_coursework.py`): with a bound present, items
without a parseable creation time are dropped, as are items outside the
bounds. -/
def windowFilterCoursework (startD endD : Option ℕ)
    (cws : List Coursework) : List Coursework :=
  cws.filter fun cw =>
    if startD.isSome || endD.isSome then
      match cw.creationTime with
      | none => false
      | some t =>
        (match startD with
         | some s2 => decide (s2 ≤ t)
         | none => true) &&
        (match endD with
         | some e => decide (t ≤ e)
         | none => true)
    else true

/-- Modelled from the spec: `analyse_students` (absent from the sources;
only its callers and its coursework fetch are present) assembles the
per-student analysis over the coursework returned by the windowed
`get_all_coursework` fetch. -/
def analyseStudents (raw : List StudentAnalysis) (startD endD : Option ℕ) :
    List StudentAnalysis :=
  raw.map fun s =>
    { s with coursework := windowFilterCoursework startD endD s.coursework }

/-- The per-course flow of `sync_all_learners`
(`sync/learner_data/writer.py`): analyse the students over the windowed
fetch, then call `sync_course_analysis_to_db` with `dry_run=False` and —
exactly as at the call site — without forwarding `start_date`, `end_date`
or `active_assignment_lms_ids`. -/
def syncAllLearnersCourse (course : CourseInfo)
    (raw : List StudentAnalysis) (schoolName sourceTag : String)
    (startD endD : Option ℕ) (now : ℕ) (db : DB) : DB × LiveStats × Bool :=
  let analysis := analyseStudents raw startD endD
  syncCourseAnalysisToDb course analysis schoolName sourceTag false none
    none none now false db

/-- A store holding one school, one course, and one assignment (external
id 99) of that course created at time 5 — outside the window requested
below. -/
def c2Store : DB :=
  ⟨[⟨1, "School"⟩], [⟨1, 100, "C", 1⟩], [], [],
    [⟨1, 99, 1, "Old", some 10, some 5, true⟩], [], [], []⟩

/-- A one-student raw feed whose only coursework item (external id 50) was
created at time 15, inside the window. -/
def c2Feed : List StudentAnalysis :=
  [⟨7, "Stu", [⟨50, "New", some 15, some 10,
    some ⟨.TURNED_IN, false, some 8⟩⟩],
    ⟨some 1, some 0, some 0, some 1, some 80, some 80⟩⟩]

/-- C2, evaluated at the failing input. A windowed `sync_all_learners`
pass (window [10, 20]) deletes assignment 99 even though it was created at
time 5, outside the window — because the entry point never forwards the
window to `sync_course_analysis_to_db`, whose cleanup therefore prunes
unconditionally. `_delete_stale_assignments` itself, handed the same
window, keeps the assignment. -/
theorem c2_windowed_prune_failing_input :
    ((syncAllLearnersCourse ⟨100, "C"⟩ c2Feed "School" "src" (some 10)
        (some 20) 30 c2Store).1.assignments.map fun a => a.lms_id) = [50] ∧
    (c2Store.assignments.map fun a => (a.lms_id, a.created_at)) =
      [(99, some 5)] ∧
    ¬ ((10 : ℕ) ≤ 5) ∧
    ((deleteStaleAssignments c2Store 1 [50] (some 10) (some 20)
        {}).1.assignments.map fun a => a.lms_id) = [99] := by
  with_unfolding_all decide

/-- A store holding one assignment with a stored non-null `max_score` of
10. -/
def c8Store : DB :=
  ⟨[], [], [], [], [⟨1, 7, 1, "T", some 10, some 0, true⟩], [], [], []⟩

/-- C8, counterexample. The claim says no observation sequence decreases a
stored non-null `max_score`. The live-feed assignment upsert overwrites a
stored 10 with an incoming differing 5 (last wins), decreasing it. -/
theorem c8_counterexample :
    ((upsertAssignmentsLive c8Store 1 [(7, ⟨"T", some 0, some 5⟩)]
        {}).1.assignments.map fun a => a.max_score) = [some 5] ∧
    (5 : ℚ) < 10 := by
  with_unfolding_all decide

/-- C8, amended. Only the report-text importer's merge is monotone: it
takes the incoming value when the stored one is unset, keeps the stored
value against a null incoming one, keeps the maximum when both are set,
and hence never decreases a stored non-null value. The live-feed path
instead overwrites a stored non-null `max_score` with any differing
non-null incoming value (see the counterexample). -/
theorem c8_importer_merge_monotone :
    (∀ s i : ℚ, importerMergeMaxScore (some s) (some i) = some (max s i)) ∧
    (∀ s : ℚ, importerMergeMaxScore (some s) none = some s) ∧
    (∀ (s r : ℚ) (x : Option ℚ),
      importerMergeMaxScore (some s) x = some r → s ≤ r) := by
  refine ⟨fun s i => rfl, fun s => rfl, ?_⟩
  intro s r x h
  cases x with
  | none =>
    cases h
    exact le_refl s
  | some i =>
    cases h
    exact le_max_left s i

/-- Witness for `c8_importer_merge_monotone`: merging stored 10 with
incoming 14 keeps at least 10. -/
theorem c8_importer_merge_monotone_witness : (10 : ℚ) ≤ 14 :=
  c8_importer_merge_monotone.2.2 10 14 (some 14)
    (by with_unfolding_all decide)

/-- With `dry_run` the main import block touches nothing. -/
theorem importSeg1_dry (students : List ImportStudent) (cid now : ℕ)
    (db : DB) (st : ImportStats) :
    (importSeg1 students cid now true db st).1 = db := by
  induction students generalizing st with
  | nil => rfl
  | cons s rest ih => exact ih _

/-- C9, amended. The live-feed course pass is one atomic transaction: a
raised exception returns the store exactly as it was, and a `dry_run`
pass leaves the store unchanged; the report-text path's `dry_run` also
leaves the store unchanged (it skips the writes) — but the report-text
pass is not one transaction, so an exception there can leave earlier
writes committed (see the counterexample). -/
theorem c9_amended :
    (∀ (course : CourseInfo) (analysis : List StudentAnalysis)
      (schoolName sourceTag : String) (dry : Bool) (startD endD : Option ℕ)
      (activeIds : Option (List ℕ)) (now : ℕ) (crash : Bool) (db : DB),
      (syncCourseAnalysisToDb course analysis schoolName sourceTag dry
        startD endD activeIds now crash db).2.2 = true →
      (syncCourseAnalysisToDb course analysis schoolName sourceTag dry
        startD endD activeIds now crash db).1 = db) ∧
    (∀ (course : CourseInfo) (analysis : List StudentAnalysis)
      (schoolName sourceTag : String) (startD endD : Option ℕ)
      (activeIds : Option (List ℕ)) (now : ℕ) (crash : Bool) (db : DB),
      (syncCourseAnalysisToDb course analysis schoolName sourceTag true
        startD endD activeIds now crash db).1 = db) ∧
    (∀ (students : List ImportStudent) (cid now : ℕ) (crash : Option ℕ)
      (db : DB), (importToDb students cid true now crash db).1 = db) := by
  refine ⟨?_, ?_, ?_⟩
  · intro course analysis schoolName sourceTag dry startD endD activeIds
      now crash db h
    by_cases he : analysis.isEmpty
    · simp [syncCourseAnalysisToDb, he]
    · cases crash with
      | true => simp [syncCourseAnalysisToDb, he]
      | false =>
        exfalso
        cases dry <;> simp [syncCourseAnalysisToDb, he] at h
  · intro course analysis schoolName sourceTag startD endD activeIds now
      crash db
    by_cases he : analysis.isEmpty
    · simp [syncCourseAnalysisToDb, he]
    · cases crash <;> simp [syncCourseAnalysisToDb, he]
  · intro students cid now crash db
    by_cases hc : crash = some 0
    · simp [importToDb, hc]
    · simp [importToDb, hc, importSeg1_dry]

/-- Witness for `c9_amended`: a crashing live pass over a nonempty
analysis leaves the empty store empty. -/
theorem c9_amended_witness :
    (syncCourseAnalysisToDb ⟨100, "C"⟩
      [⟨7, "S", [], ⟨none, none, none, none, none, none⟩⟩] "School" "src"
      false none none none 3 true DB.empty).1 = DB.empty :=
  c9_amended.1 ⟨100, "C"⟩ [⟨7, "S", [], ⟨none, none, none, none, none,
    none⟩⟩] "School" "src" false none none none 3 true DB.empty
    (by with_unfolding_all decide)

/-- C9, counterexample. An exception during the report-text pass's final
sync-log transaction (group index 2: after the main import and the one
summary rebuild) propagates while the main import stays committed: the
store is not rolled back to its prior (empty) state. -/
theorem c9_counterexample :
    (importToDb [⟨"S", 5, [⟨20, "T", .Submitted, none, some 9, some 14,
        none, 3⟩]⟩] 1 false 1 (some 2) DB.empty).2.2 = true ∧
    (importToDb [⟨"S", 5, [⟨20, "T", .Submitted, none, some 9, some 14,
        none, 3⟩]⟩] 1 false 1 (some 2) DB.empty).1.students =
      [⟨1, 5, "S"⟩] ∧
    ([⟨1, 5, "S"⟩] : List StudentRow) ≠ [] := by
  with_unfolding_all decide

/-- A nonzero assigned grade always lands in `score_points`, whatever the
maximum. -/
theorem score_points_of_nonzero_grade (cw : Coursework)
    (sub : RawSubmission) (g : ℚ) (hs : cw.submission = some sub)
    (hg : sub.assignedGrade = some g) (hz : g ≠ 0) :
    (computeSubmissionStatusAndScore cw).score_points = some g := by
  rcases hmp : cw.maxPoints with _ | m
  · simp [computeSubmissionStatusAndScore, hs, hg, hz, hmp]
  · by_cases hm0 : m = 0 <;>
      simp [computeSubmissionStatusAndScore, hs, hg, hz, hmp, hm0]

/-- The `points_earned` column of the aggregation, unfolded. -/
theorem computeSummaryRow_points_earned (db : DB) (sid cid now : ℕ) :
    (computeSummaryRow db sid cid now).points_earned =
      (let rows := (db.assignments.filter fun a => a.course_id == cid).map
        fun a => (a, findSubmission db sid a.id)
       if rows.isEmpty then none
       else some ((rows.map fun r =>
         ((r.2.bind fun s => s.score_points).getD 0)).sum)) := rfl

/-- The `points_possible` column of the aggregation, unfolded. -/
theorem computeSummaryRow_points_possible (db : DB) (sid cid now : ℕ) :
    (computeSummaryRow db sid cid now).points_possible =
      (let rows := (db.assignments.filter fun a => a.course_id == cid).map
        fun a => (a, findSubmission db sid a.id)
       if rows.isEmpty then none
       else some ((rows.map fun r => possiblePoints db r.1).sum)) := rfl

/-- Over stored rows mirroring a feed of graded coursework, the
aggregation's two point sums coincide with the direct writer's two point
loops. -/
theorem pointsSums_of_mirror (db : DB) (sid : ℕ) :
    ∀ ps : List (AssignmentRow × Coursework),
    (∀ p ∈ ps, (findSubmission db sid p.1.id).bind (fun s => s.score_points)
      = (computeSubmissionStatusAndScore p.2).score_points) →
    (∀ p ∈ ps, p.1.max_score = p.2.maxPoints) →
    (∀ p ∈ ps, ∃ sub g m, p.2.submission = some sub ∧
      sub.assignedGrade = some g ∧ 0 < g ∧ p.2.maxPoints = some m) →
    (ps.map fun p =>
        ((findSubmission db sid p.1.id).bind fun s => s.score_points).getD
          0).sum = directPointsEarned (ps.map fun p => p.2) ∧
    (ps.map fun p => possiblePoints db p.1).sum =
      directPointsPossible (ps.map fun p => p.2) := by
  intro ps
  induction ps with
  | nil =>
    intro _ _ _
    simp [directPointsEarned, directPointsPossible]
  | cons p rest ih =>
    intro h1 h2 h3
    obtain ⟨sub, g, m, hsub, hg, hpos, hm⟩ :=
      h3 p (List.mem_cons_self p rest)
    have hd := score_points_of_nonzero_grade p.2 sub g hsub hg
      (ne_of_gt hpos)
    have hsp : (findSubmission db sid p.1.id).bind
        (fun s => s.score_points) = some g := by
      rw [h1 p (List.mem_cons_self p rest), hd]
    have hmx : p.1.max_score = some m := by
      rw [h2 p (List.mem_cons_self p rest), hm]
    have hrest := ih (fun q hq => h1 q (List.mem_cons_of_mem p hq))
      (fun q hq => h2 q (List.mem_cons_of_mem p hq))
      (fun q hq => h3 q (List.mem_cons_of_mem p hq))
    constructor
    · have hhead : directPointsEarned (p.2 :: rest.map fun q => q.2) =
          g + directPointsEarned (rest.map fun q => q.2) := by
        simp [directPointsEarned, List.filterMap_cons, hsub, hm, hg,
          hpos.not_le]
      simp only [List.map_cons, List.sum_cons, hsp, Option.getD_some,
        hhead, hrest.1]
    · have hhead : directPointsPossible (p.2 :: rest.map fun q => q.2) =
          m + directPointsPossible (rest.map fun q => q.2) := by
        simp [directPointsPossible, List.filterMap_cons, hsub, hm, hg,
          hpos.not_le]
      have hposs : possiblePoints db p.1 = m := by
        simp [possiblePoints, hmx]
      simp only [List.map_cons, List.sum_cons, hposs, hhead, hrest.2]

/-- C10, amended. The two summary writers disagree in general (see the
counterexample), but their point sums agree on fully graded feeds: when
the stored assignment rows of the course mirror the coursework one-to-one
(same `max_score` as `maxPoints`, stored submission points equal to the
derived points) and every coursework item carries a known `maxPoints` and
a submission with a positive grade, `rebuild_summary`'s `points_earned`
and `points_possible` over the stored rows equal the
`_upsert_course_summary` loops over the feed. -/
theorem c10_amended (db : DB) (sid cid now : ℕ)
    (pairs : List (AssignmentRow × Coursework)) (hne : pairs ≠ [])
    (hasg : db.assignments.filter (fun a => a.course_id == cid) =
      pairs.map fun p => p.1)
    (hmax : ∀ p ∈ pairs, p.1.max_score = p.2.maxPoints)
    (hsub : ∀ p ∈ pairs,
      (findSubmission db sid p.1.id).bind (fun s => s.score_points) =
        (computeSubmissionStatusAndScore p.2).score_points)
    (hq : ∀ p ∈ pairs, ∃ sub g m, p.2.submission = some sub ∧
      sub.assignedGrade = some g ∧ 0 < g ∧ p.2.maxPoints = some m) :
    (computeSummaryRow db sid cid now).points_earned =
      some (directPointsEarned (pairs.map fun p => p.2)) ∧
    (computeSummaryRow db sid cid now).points_possible =
      some (directPointsPossible (pairs.map fun p => p.2)) := by
  have key := pointsSums_of_mirror db sid pairs hsub hmax hq
  have hrows : ((db.assignments.filter fun a => a.course_id == cid).map
      fun a => (a, findSubmission db sid a.id)) =
      pairs.map fun p => (p.1, findSubmission db sid p.1.id) := by
    rw [hasg, List.map_map]
    rfl
  have hemp : (pairs.map fun p =>
      (p.1, findSubmission db sid p.1.id)).isEmpty = false := by
    cases pairs with
    | nil => exact absurd rfl hne
    | cons a t => rfl
  constructor
  · rw [computeSummaryRow_points_earned]
    simp only [hrows, hemp, Bool.false_eq_true, if_false, List.map_map]
    rw [show ((fun r : AssignmentRow × Option SubmissionRow =>
        ((r.2.bind fun s => s.score_points).getD 0)) ∘
        fun p : AssignmentRow × Coursework =>
          (p.1, findSubmission db sid p.1.id)) =
      fun p : AssignmentRow × Coursework =>
        ((findSubmission db sid p.1.id).bind fun s =>
          s.score_points).getD 0 from rfl]
    rw [key.1]
  · rw [computeSummaryRow_points_possible]
    simp only [hrows, hemp, Bool.false_eq_true, if_false, List.map_map]
    rw [show ((fun r : AssignmentRow × Option SubmissionRow =>
        possiblePoints db r.1) ∘
        fun p : AssignmentRow × Coursework =>
          (p.1, findSubmission db sid p.1.id)) =
      fun p : AssignmentRow × Coursework => possiblePoints db p.1
      from rfl]
    rw [key.2]

/-- A feed with one graded and one unsubmitted coursework item, both with
`maxPoints = 10`. -/
def c10Feed : List StudentAnalysis :=
  [⟨7, "S", [⟨1, "A", some 1, some 10, some ⟨.TURNED_IN, false, some 8⟩⟩,
    ⟨2, "B", some 1, some 10, none⟩],
    ⟨some 2, some 1, some 0, some 1, some 80, some 40⟩⟩]

/-- The store produced by one live pass over `c10Feed`. -/
def c10Store : DB :=
  (syncCourseAnalysisToDb ⟨100, "C"⟩ c10Feed "School" "src" false none
    none none 30 false DB.empty).1

/-- C10, counterexample. On `c10Feed` the pass writes a summary row with
`points_possible = 10` (only graded coursework counts), while the
aggregator over the very rows stored by that pass computes
`points_possible = 20` (every assignment counts): the two writers
disagree. -/
theorem c10_counterexample :
    (findSummary c10Store 1 1).map (fun r => r.points_possible) =
      some (some 10) ∧
    (computeSummaryRow c10Store 1 1 30).points_possible = some 20 ∧
    some (10 : ℚ) ≠ some (20 : ℚ) := by
  with_unfolding_all decide

/-- A fully graded two-item feed. -/
def c10WitnessFeed : List Coursework :=
  [⟨1, "A", some 1, some 10, some ⟨.TURNED_IN, false, some 8⟩⟩,
   ⟨2, "B", some 1, some 5, some ⟨.TURNED_IN, true, some 3⟩⟩]

/-- The store produced by one live pass over the fully graded feed. -/
def c10WitnessStore : DB :=
  (syncCourseAnalysisToDb ⟨100, "C"⟩
    [⟨7, "S", c10WitnessFeed, ⟨some 2, some 0, some 1, some 2, some 70,
      some 73⟩⟩] "School" "src" false none none none 30 false DB.empty).1

/-- The stored assignment rows of that pass paired with their feed
items. -/
def c10WitnessPairs : List (AssignmentRow × Coursework) :=
  [(⟨1, 1, 1, "A", some 10, some 1, true⟩,
    ⟨1, "A", some 1, some 10, some ⟨.TURNED_IN, false, some 8⟩⟩),
   (⟨2, 2, 1, "B", some 5, some 1, true⟩,
    ⟨2, "B", some 1, some 5, some ⟨.TURNED_IN, true, some 3⟩⟩)]

/-- Witness for `c10_amended` on the store a real pass produced. -/
theorem c10_amended_witness :
    (computeSummaryRow c10WitnessStore 1 1 30).points_earned =
      some (directPointsEarned (c10WitnessPairs.map fun p => p.2)) ∧
    (computeSummaryRow c10WitnessStore 1 1 30).points_possible =
      some (directPointsPossible (c10WitnessPairs.map fun p => p.2)) :=
  c10_amended c10WitnessStore 1 1 30 c10WitnessPairs
    (by with_unfolding_all decide) (by with_unfolding_all decide)
    (by with_unfolding_all decide) (by with_unfolding_all decide)
    (by
      intro p hp
      simp only [c10WitnessPairs, List.mem_cons, List.not_mem_nil,
        or_false] at hp
      rcases hp with rfl | rfl
      · exact ⟨⟨.TURNED_IN, false, some 8⟩, 8, 10, rfl, rfl, by norm_num,
          rfl⟩
      · exact ⟨⟨.TURNED_IN, true, some 3⟩, 3, 5, rfl, rfl, by norm_num,
          rfl⟩)

end AssignmentBot
